import Mathlib

/-!
Shallow embedding of the faas-poc FaaS control plane (FastAPI + SQLAlchemy + Docker/Kubernetes)
for verification of its specification.

The embedding models:
* the persisted callback registry (`app/repositories/callback_repo.py`) as a list of
  `CallbackInfo` records in insertion order (SQLAlchemy `query(...).first()` without an
  `order_by` returns rows in rowid = insertion order on SQLite);
* the in-memory route table `callback_map` and the two response caches of
  `app/routers/api.py` as association lists;
* the HTTP handlers of `app/routers/deploy.py`, `app/routers/api.py` and
  `app/routers/callback.py` as state-passing functions;
* the external world (docker build exit codes, container runs, raised exceptions)
  as explicit outcome parameters consumed by the embedded functions.

Timestamps (`updated_at`), chatrooms (`chat_id`) and logging are not modelled: no claim
mentions them and they do not feed back into control flow.
-/

set_option linter.unusedVariables false

/-- Decidable equality for `Except`, used to evaluate endpoint results concretely. -/
instance {e a : Type} [DecidableEq e] [DecidableEq a] : DecidableEq (Except e a) := fun x y =>
  match x, y with
  | .error e1, .error e2 =>
      if h : e1 = e2 then .isTrue (by rw [h])
      else .isFalse (fun q => by cases q; exact h rfl)
  | .error _, .ok _ => .isFalse (fun q => by cases q)
  | .ok _, .error _ => .isFalse (fun q => by cases q)
  | .ok x1, .ok y1 =>
      if h : x1 = y1 then .isTrue (by rw [h])
      else .isFalse (fun q => by cases q; exact h rfl)

/-- Association-list lookup, mirroring Python `d.get(k)` / `d[k]` on dicts. -/
def lookupD {κ α : Type} [DecidableEq κ] : List (κ × α) → κ → Option α
  | [], _ => none
  | (k2, v) :: rest, k => if k2 = k then some v else lookupD rest k

/-- Association-list update, mirroring Python `d[k] = v` (replace in place or append). -/
def dictSet {κ α : Type} [DecidableEq κ] : List (κ × α) → κ → α → List (κ × α)
  | [], k, v => [(k, v)]
  | (k2, v2) :: rest, k, v =>
      if k2 = k then (k, v) :: rest else (k2, v2) :: dictSet rest k v

/-- Association-list deletion, mirroring Python `del d[k]`. -/
def dictErase {κ α : Type} [DecidableEq κ] (d : List (κ × α)) (k : κ) : List (κ × α) :=
  d.filter (fun p => p.1 ≠ k)

/-- Python `k in d` on a dict. -/
def dictContains {κ α : Type} [DecidableEq κ] (d : List (κ × α)) (k : κ) : Bool :=
  (lookupD d k).isSome

/-- One row of the `callback_info` table (`app/core/models.py`).
`env` is the JSON column holding the callback's environment map. -/
structure CallbackInfo where
  callback_id : Nat
  path : String
  method : String
  type : String
  code : String
  library : Option String
  env : List (String × String)
  status : String
deriving DecidableEq, Repr

/-- Model of `normalize_path` from `app/routers/deploy.py`: `path.lstrip("/")` guarded by
`if not path: return path`. -/
def normalize_path (path : String) : String :=
  if path = "" then path
  else String.mk (path.toList.dropWhile (fun c => c = '/'))

namespace CallbackRepository

/-- Model of `CallbackRepository.get_callback_by_id`: first row with the given id. -/
def get_callback_by_id (db : List CallbackInfo) (callback_id : Nat) : Option CallbackInfo :=
  db.find? (fun c => c.callback_id = callback_id)

/-- Model of `CallbackRepository.get_callback_by_path`.  The source filter is
`CallbackInfo.path == path and CallbackInfo.method == method` — a Python `and` of two
SQLAlchemy expressions, not a SQL AND.  `bool(CallbackInfo.path == path)` is `False`
(SQLAlchemy `BinaryExpression.__bool__` compares the hashes of the two operand
expressions for `==`), so the `and` short-circuits to its left operand and the emitted
SQL filters on `path` alone; the `method` argument is ignored. -/
def get_callback_by_path (db : List CallbackInfo) (path method : String) :
    Option CallbackInfo :=
  db.find? (fun c => c.path = path)

/-- Failure modes of `create_callback`: the repository-level duplicate check raises
`ValueError` (mapped to HTTP 409 by the router); an insert that slips past it violates
the declared `UniqueConstraint('path', 'method')` of `callback_info` and raises
`IntegrityError`, which no caller catches. -/
inductive CreateError
  | valueError (msg : String)
  | integrityError
deriving DecidableEq, Repr

/-- Model of `CallbackRepository.create_callback` (chat rooms not modelled; `chat_id = None`).
The duplicate check examines ONLY the first row whose `path` matches
(`.filter(CallbackInfo.path == path).first()`) and raises `ValueError` only when that
single row also has the same `method`.  The new row gets the next autoincrement id and
status `"pending"`. -/
def create_callback (db : List CallbackInfo) (path method type code : String)
    (library : Option String) (env : List (String × String)) :
    Except CreateError (List CallbackInfo × CallbackInfo) :=
  match db.find? (fun c => c.path = path) with
  | some existing =>
      if existing.method = method then
        .error (.valueError "Callback with this path / method already exists")
      else if db.any (fun c => c.path = path ∧ c.method = method) then
        .error .integrityError
      else
        let cb : CallbackInfo :=
          ⟨(db.foldl (fun m c => max m c.callback_id) 0) + 1,
            path, method, type, code, library, env, "pending"⟩
        .ok (db ++ [cb], cb)
  | none =>
      if db.any (fun c => c.path = path ∧ c.method = method) then
        .error .integrityError
      else
        let cb : CallbackInfo :=
          ⟨(db.foldl (fun m c => max m c.callback_id) 0) + 1,
            path, method, type, code, library, env, "pending"⟩
        .ok (db ++ [cb], cb)

/-- The keyword arguments accepted by `CallbackRepository.update_callback` as used by
the routers (`path, method, type, code, status, library, env`); a `none` field means
the key is absent from `kwargs`. -/
structure UpdateKwargs where
  path : Option String
  method : Option String
  type : Option String
  code : Option String
  status : Option String
  library : Option String
  env : Option (List (String × String))
deriving DecidableEq, Repr

/-- The `setattr` loop of `update_callback`: apply every provided kwarg to the row. -/
def applyKwargs (cb : CallbackInfo) (kw : UpdateKwargs) : CallbackInfo :=
  { cb with
      path := kw.path.getD cb.path
      method := kw.method.getD cb.method
      type := kw.type.getD cb.type
      code := kw.code.getD cb.code
      status := kw.status.getD cb.status
      library := match kw.library with | some l => some l | none => cb.library
      env := kw.env.getD cb.env }

/-- Result of `CallbackRepository.update_callback`: `None` when the id is unknown,
`ValueError` when the (correctly conjunctive) duplicate check fires, otherwise the
updated table and row. -/
inductive UpdateResult
  | notFound
  | valueError (msg : String)
  | updated (db : List CallbackInfo) (cb : CallbackInfo)
deriving DecidableEq, Repr

/-- Model of `CallbackRepository.update_callback`.  The duplicate check runs only when `path`
or `method` is among the kwargs and — unlike `create_callback` — filters with commas
(a real conjunction) and excludes the row itself. -/
def update_callback (db : List CallbackInfo) (callback_id : Nat) (kw : UpdateKwargs) :
    UpdateResult :=
  match get_callback_by_id db callback_id with
  | none => .notFound
  | some callback =>
      let target_path := kw.path.getD callback.path
      let target_method := kw.method.getD callback.method
      if (kw.path.isSome ∨ kw.method.isSome)
          ∧ db.any (fun c =>
              c.path = target_path ∧ c.method = target_method
                ∧ c.callback_id ≠ callback.callback_id) then
        .valueError "Callback with this path and method already exists"
      else
        .updated
          (db.map (fun c =>
            if c.callback_id = callback_id then applyKwargs c kw else c))
          (applyKwargs callback kw)

/-- Model of `CallbackRepository.delete_callback`: remove the row; `False` when absent. -/
def delete_callback (db : List CallbackInfo) (callback_id : Nat) :
    Bool × List CallbackInfo :=
  match get_callback_by_id db callback_id with
  | none => (false, db)
  | some _ => (true, db.filter (fun c => c.callback_id ≠ callback_id))

end CallbackRepository

/-- Status-only update, as done by the deploy orchestrator
(`CallbackRepository.update_callback(db, id, status=...)`). -/
def update_status (db : List CallbackInfo) (callback_id : Nat) (s : String) :
    List CallbackInfo :=
  match CallbackRepository.update_callback db callback_id
      ⟨none, none, none, none, some s, none, none⟩ with
  | .updated db2 _ => db2
  | _ => db

/-- Route table type: `callback_map = { path : { METHOD : image_name } }`. -/
abbrev RouteTable := List (String × List (String × String))

/-- A uniform execution result as handled by the dispatcher: either the parsed output
of a function container (kept opaque as its canonical serialization) or one of the
structured `{lambda_status_code, body}` fault dictionaries. -/
inductive ExecResult
  | payload (s : String)
  | statusBody (lambda_status_code : Nat) (body : String)
deriving DecidableEq, Repr

/-- The raw hash input of `_generate_cache_key` (`app/routers/api.py`).  The source
serializes `(path_name, method, sorted(query_params.items()), canonical body JSON)`
with `json.dumps(..., sort_keys=True)` and then applies `md5(...).hexdigest()`; both
steps are deterministic functions of these four fields, so key equality in the source
follows from equality of this structure (md5 collisions could only merge *distinct*
requests, which no claim relies on). -/
structure CacheKey where
  path_name : String
  method : String
  query_sorted : List (String × String)
  body_json : String
deriving DecidableEq, Repr

/-- Ordering used by Python `sorted` on `(key, value)` string pairs. -/
def pairLe (a b : String × String) : Bool :=
  match compare a.1 b.1 with
  | .lt => true
  | .gt => false
  | .eq => compare a.2 b.2 ≠ Ordering.gt

/-- Insertion step of a stable insertion sort. -/
def insertPair (x : String × String) : List (String × String) → List (String × String)
  | [] => [x]
  | y :: ys => if pairLe x y then x :: y :: ys else y :: insertPair x ys

/-- Model of `sorted(query_params.items())`. -/
def sortPairs (l : List (String × String)) : List (String × String) :=
  l.foldr insertPair []

/-- Model of `_generate_cache_key(path_name, method, query_params, body_data)`. -/
def _generate_cache_key (path_name method : String)
    (query_params : List (String × String)) (body_data : String) : CacheKey :=
  ⟨path_name, method, sortPairs query_params, body_data⟩

/-- The full mutable state of the process: the persisted registry plus the module-level
dictionaries `callback_map`, `building_callbacks` (`app/routers/deploy.py`) and
`_kube_callback_cache`, `_docker_callback_cache` (`app/routers/api.py`). -/
structure AppState where
  db : List CallbackInfo
  callback_map : RouteTable
  building_callbacks : List (Nat × String)
  _kube_callback_cache : List (CacheKey × ExecResult)
  _docker_callback_cache : List (CacheKey × ExecResult)
deriving DecidableEq, Repr

/-- Model of `clear_api_caches` (`app/routers/api.py`): `.clear()` on both cache dicts. -/
def clear_api_caches (st : AppState) : AppState :=
  { st with _kube_callback_cache := [], _docker_callback_cache := [] }

/-- HTTP-level outcome of a dispatch. `raisedTypeError` models an exception escaping
the handler (FastAPI turns it into a 500 response). -/
inductive DispatchResponse
  | notFound
  | methodNotAllowed
  | ok (result : ExecResult)
  | raisedTypeError
deriving DecidableEq, Repr

/-- Result of one dispatch: the response, the state after the call, and whether an
execution backend was actually invoked. -/
structure DispatchStep where
  response : DispatchResponse
  st : AppState
  backendInvoked : Bool
deriving DecidableEq, Repr

/-- Body handling of both dispatch handlers: `body_data = {}` unless the method is
POST or PUT and `await request.json()` succeeds; `body` is the canonical serialization
of the parsed JSON body (`none` = absent or unparsable). -/
def dispatch_body_data (method : String) (body : Option String) : String :=
  if method = "POST" ∨ method = "PUT" then body.getD "\x7b\x7d" else "\x7b\x7d"

/-- Model of `execute_callback` (`app/routers/api.py`, the local/Docker dispatch handler).
`backend` is the value `run_callback_container(...)` would return on this invocation;
it is consumed only on a cache miss, and `backendInvoked` records whether it was. -/
def execute_callback (st : AppState) (path_name method : String)
    (query_params : List (String × String)) (body : Option String)
    (backend : ExecResult) : DispatchStep :=
  match lookupD st.callback_map path_name with
  | none => ⟨.notFound, st, false⟩
  | some path_methods =>
      if (lookupD path_methods method).isNone
          ∨ (CallbackRepository.get_callback_by_path st.db
              ("/" ++ path_name) method).isNone then
        ⟨.methodNotAllowed, st, false⟩
      else
        let body_data := dispatch_body_data method body
        let cache_key := _generate_cache_key path_name method query_params body_data
        match lookupD st._docker_callback_cache cache_key with
        | some cached => ⟨.ok cached, st, false⟩
        | none =>
            ⟨.ok backend,
              { st with _docker_callback_cache :=
                  dictSet st._docker_callback_cache cache_key backend },
              true⟩

/-- Model of `execute_kube_callback` (`app/routers/api.py`, the cluster dispatch handler).
On a cache miss the handler evaluates
`run_lambda_job(image_name=..., session_id=..., event_data=..., env_vars=callback.env)`;
`kube_utils.run_lambda_job(image_name, session_id, event_data)` accepts no `env_vars`
parameter, so the call raises `TypeError` before any job is created — the exception
escapes the handler and the cache is not written. -/
def execute_kube_callback (st : AppState) (path_name method : String)
    (query_params : List (String × String)) (body : Option String) : DispatchStep :=
  match lookupD st.callback_map path_name with
  | none => ⟨.notFound, st, false⟩
  | some path_methods =>
      if (lookupD path_methods method).isNone
          ∨ (CallbackRepository.get_callback_by_path st.db
              ("/" ++ path_name) method).isNone then
        ⟨.methodNotAllowed, st, false⟩
      else
        let body_data := dispatch_body_data method body
        let cache_key := _generate_cache_key path_name method query_params body_data
        match lookupD st._kube_callback_cache cache_key with
        | some cached => ⟨.ok cached, st, false⟩
        | none => ⟨.raisedTypeError, st, false⟩

/-- HTTP error raised by a router (FastAPI `HTTPException` status codes), plus the
uncaught `IntegrityError` surfaced as a 500. -/
inductive EndpointError
  | notFound404
  | badRequest400
  | conflict409 (msg : String)
  | integrityError500
deriving DecidableEq, Repr

/-- The undeploy branch of `deploy_callback_docker` (`req.status is False`):
membership test and deletion use the RAW `callback.path` as stored in the registry
(no `normalize_path`), then status is set to `"undeployed"`. -/
def undeploy_route (m : RouteTable) (path method : String) : RouteTable :=
  if (lookupD m path).any (fun methods => dictContains methods method) then
    let methods := (lookupD m path).getD []
    let methods2 := dictErase methods method
    if methods2.isEmpty then dictErase m path else dictSet m path methods2
  else m

/-- Model of `deploy_callback_docker` (`app/routers/deploy.py`), up to the point where the
background build task is scheduled.  For `status=False` it removes the route entry
(raw path) and marks the callback `"undeployed"`; for `status=True` it marks the
callback `"build"` and returns — the build itself is `_build_and_register_callback`,
applied separately because it runs as a detached background task. -/
def deploy_callback_docker (st : AppState) (callback_id : Nat) (status : Bool) :
    Except EndpointError AppState :=
  match CallbackRepository.get_callback_by_id st.db callback_id with
  | none => .error .notFound404
  | some callback =>
      if status = false then
        .ok { st with
                callback_map := undeploy_route st.callback_map callback.path callback.method,
                db := update_status st.db callback_id "undeployed" }
      else
        .ok { st with db := update_status st.db callback_id "build" }

/-- External events feeding one run of `build_callback_image_background`:
whether `RUNTIME_TEMPLATE_DIR / runtime_type` exists, the `docker build` exit code,
and whether some statement of its `try` block raises. -/
structure BuildEnv where
  runtime_exists : Bool
  exit_code : Nat
  raises : Bool
deriving DecidableEq, Repr

/-- Return value of `build_callback_image_background`: the `{"status": ..., ...}`
dictionary. -/
inductive BuildResult
  | success (image : String)
  | failed (error : String)
deriving DecidableEq, Repr

/-- Model of `build_callback_image_background` (`app/utils/docker_utils.py`).  Branches, in
source order: unknown runtime; any exception inside the `try` (caught by its own
`except`, returned as a failed result); for `container_type == "kube"` the call
`build_kube_callback_image(image_name)` passes one argument to a three-parameter
function (`callback_id, code, runtime_type` in `app/utils/kube_utils.py`), raising
`TypeError`, which the same `except` converts to a failed result; a nonzero build
exit code; otherwise success with image `f"callback_{callback_id}".lower()`. -/
def build_callback_image_background (callback_id : Nat) (container_type : String)
    (benv : BuildEnv) : BuildResult :=
  if benv.runtime_exists = false then .failed "Unknown runtime type"
  else if benv.raises then .failed "Build error"
  else if container_type = "kube" then .failed "Build error: TypeError"
  else if benv.exit_code ≠ 0 then .failed "Build failed"
  else .success (String.mk (("callback_" ++ toString callback_id).toList.map Char.toLower))

/-- Model of `_build_and_register_callback` (`app/routers/deploy.py`), the detached build task.
`escape` models an exception raised by the `await build_callback_image_background(...)`
call itself (everything inside that function is caught by its own handler); the task's
own `except` then sets status `"failed"`.  On a success result: insert
`normalize_path(path) → method → image` into `callback_map` and set `"deployed"`;
on a failed result: set `"failed"` and leave the route table alone.  The
`building_callbacks` entry is added and removed in `finally`, so its net effect is nil
and it is not modelled as an intermediate state. -/
def _build_and_register_callback (st : AppState) (callback_id : Nat)
    (path method : String) (container_type : String)
    (benv : BuildEnv) (escape : Bool) : AppState :=
  if escape then { st with db := update_status st.db callback_id "failed" }
  else
    match build_callback_image_background callback_id container_type benv with
    | .success image =>
        let normalized_path := normalize_path path
        let methods := (lookupD st.callback_map normalized_path).getD []
        { st with
            callback_map := dictSet st.callback_map normalized_path
              (dictSet methods method image),
            db := update_status st.db callback_id "deployed" }
    | .failed _ => { st with db := update_status st.db callback_id "failed" }

/-- Model of `register_callback` (`app/routers/callback.py`): `ValueError` from the repository
is converted to HTTP 409; the `IntegrityError` raised at flush time by the declared
`uq_path_method` constraint is NOT caught and escapes as a 500. -/
def register_callback (st : AppState) (path method type code : String)
    (library : Option String) (env : List (String × String)) :
    Except EndpointError CallbackInfo × AppState :=
  match CallbackRepository.create_callback st.db path method type code library env with
  | .error (.valueError m) => (.error (.conflict409 m), st)
  | .error .integrityError => (.error .integrityError500, st)
  | .ok (db2, cb) => (.ok cb, { st with db := db2 })

/-- Model of `update_callback` (`app/routers/callback.py`).  After the in-memory-route-table
conflict pre-check (which uses the RAW target path as map key and treats an empty
method dict as falsy, exactly like `callback_map.get(path) and method in ...`), the
repository update runs and then `_clear_api_caches()` empties both response caches on
every successful update, whatever fields were touched. -/
def update_callback (st : AppState) (callback_id : Nat)
    (req : CallbackRepository.UpdateKwargs) :
    Except EndpointError CallbackInfo × AppState :=
  match CallbackRepository.get_callback_by_id st.db callback_id with
  | none => (.error .notFound404, st)
  | some origin_callback =>
      let path := req.path.getD origin_callback.path
      let method := req.method.getD origin_callback.method
      if ((lookupD st.callback_map path).any (fun ms => dictContains ms method))
          ∧ (origin_callback.path ≠ path ∨ origin_callback.method ≠ method) then
        (.error (.conflict409 "Callback with this path and method already exists"), st)
      else
        match CallbackRepository.update_callback st.db callback_id req with
        | .valueError m => (.error (.conflict409 m), st)
        | .notFound => (.error .notFound404, clear_api_caches st)
        | .updated db2 cb => (.ok cb, clear_api_caches { st with db := db2 })

/-- Model of `delete_callback` (`app/routers/callback.py`).  A callback whose status is
`"build"` is rejected with 400 before anything is touched.  Otherwise the registry row
is deleted; the route-table cleanup and the cache clear run ONLY when the raw stored
`(path, method)` pair is present in `callback_map`. -/
def delete_callback (st : AppState) (callback_id : Nat) :
    Except EndpointError String × AppState :=
  match CallbackRepository.get_callback_by_id st.db callback_id with
  | none => (.error .notFound404, st)
  | some callback =>
      if callback.status = "build" then (.error .badRequest400, st)
      else
        let del := CallbackRepository.delete_callback st.db callback_id
        let st2 := { st with db := del.2 }
        if dictContains st.callback_map callback.path
            ∧ (lookupD st.callback_map callback.path).any
                (fun ms => dictContains ms callback.method) then
          let methods := (lookupD st.callback_map callback.path).getD []
          let methods2 := dictErase methods callback.method
          let map2 := if methods2.isEmpty then dictErase st.callback_map callback.path
                      else dictSet st.callback_map callback.path methods2
          (.ok "Callback deleted successfully",
            clear_api_caches { st2 with callback_map := map2 })
        else
          (.ok "Callback deleted successfully", st2)

/-- Model of `LambdaStatusCode` (`app/models/lambda_model.py`). -/
inductive LambdaStatusCode
  | SUCCESS
  | JSON_PARSE_ERROR
  | LAMBDA_ERROR
  | TIMEOUT
deriving DecidableEq, Repr

/-- The numeric `.value` of each `LambdaStatusCode` member. -/
def LambdaStatusCode.value : LambdaStatusCode → Nat
  | .SUCCESS => 200
  | .JSON_PARSE_ERROR => 400
  | .LAMBDA_ERROR => 500
  | .TIMEOUT => 504

/-- The ceiling passed to `completed.communicate(timeout=30)` in
`run_callback_container`. -/
def CONTAINER_WAIT_SECONDS : Nat := 30

/-- How one `docker run` of `run_callback_container` can go: the process finishes
within the 30-second ceiling and its stdout parses (`some` the parsed value) or does
not (`none`); or `communicate` raises `TimeoutExpired`; or some other exception is
raised. -/
inductive ContainerRun
  | completes (stdout_json : Option ExecResult)
  | timesOut
  | otherError
deriving DecidableEq, Repr

/-- What `run_callback_container` produced: the returned dictionary, and whether
`completed.terminate()` was called on the container process. -/
structure RunOutcome where
  result : ExecResult
  terminateCalled : Bool
deriving DecidableEq, Repr

/-- Model of `run_callback_container` (`app/utils/docker_utils.py`).  Every fault branch
returns a structured `{lambda_status_code, body}` dictionary; no branch re-raises. -/
def run_callback_container (run : ContainerRun) : RunOutcome :=
  match run with
  | .completes (some parsed) => ⟨parsed, false⟩
  | .completes none =>
      ⟨.statusBody LambdaStatusCode.JSON_PARSE_ERROR.value
        "Invalid JSON Response from Container", false⟩
  | .timesOut =>
      ⟨.statusBody LambdaStatusCode.TIMEOUT.value "Process Time Out (30s)", true⟩
  | .otherError =>
      ⟨.statusBody LambdaStatusCode.LAMBDA_ERROR.value "Lambda execution error", false⟩

/-- The environment injected into a local container run by `run_callback_container`:
`-e SESSION_ID=... -e EVENT=<json> -e KEY=VALUE ...` for every entry of `env_vars`. -/
def docker_run_env (session_id event_json : String)
    (env_vars : List (String × String)) : List (String × String) :=
  ("SESSION_ID", session_id) :: ("EVENT", event_json) :: env_vars

/-- The environment a cluster job container receives from `run_lambda_job`
(`app/utils/kube_utils.py`): the pod spec's `env` list is exactly
`[V1EnvVar(name="SESSION_ID", value="1234")]` — the `session_id` and `event_data`
arguments are never used and no per-callback variables are added. -/
def run_lambda_job_env (image_name session_id event_json : String) :
    List (String × String) :=
  [("SESSION_ID", "1234")]

/-- The parameter list of `kube_utils.run_lambda_job`. -/
def run_lambda_job_params : List String :=
  ["image_name", "session_id", "event_data"]

/-- The keyword arguments `execute_kube_callback` (`app/routers/api.py`) passes to
`run_lambda_job`. -/
def execute_kube_callback_kwargs : List String :=
  ["image_name", "session_id", "event_data", "env_vars"]

/-- Lookup after `d[k] = v` finds `v`. -/
theorem lookupD_dictSet_self {κ α : Type} [DecidableEq κ]
    (d : List (κ × α)) (k : κ) (v : α) : lookupD (dictSet d k v) k = some v := by
  induction d with
  | nil => simp [dictSet, lookupD]
  | cons p rest ih =>
      by_cases h : p.1 = k
      · simp [dictSet, h, lookupD]
      · simp [dictSet, h, lookupD, ih]

/-- A status-only repository update rewrites exactly the status of the addressed row. -/
theorem get_callback_by_id_update_status (db : List CallbackInfo) (id : Nat) (s : String) :
    CallbackRepository.get_callback_by_id (update_status db id s) id
      = (CallbackRepository.get_callback_by_id db id).map
          (fun c => { c with status := s }) := by
  unfold update_status CallbackRepository.update_callback
  cases h : CallbackRepository.get_callback_by_id db id with
  | none => simp [h]
  | some cb =>
      simp only [h]
      simp only [Option.isSome_none, Option.getD_some, Option.getD_none]
      rw [if_neg (by simp)]
      simp only [Option.map_some]
      unfold CallbackRepository.get_callback_by_id at h ⊢
      induction db with
      | nil => simp at h
      | cons c rest ih =>
          by_cases hc : c.callback_id = id
          · simp_all [List.find?, CallbackRepository.applyKwargs]
          · simp_all [List.find?, CallbackRepository.applyKwargs]

/-- After the repository delete, the row is gone. -/
theorem get_callback_by_id_filter_ne (db : List CallbackInfo) (id : Nat) :
    CallbackRepository.get_callback_by_id
      (db.filter (fun c => c.callback_id ≠ id)) id = none := by
  unfold CallbackRepository.get_callback_by_id
  rw [List.find?_eq_none]
  intro c hc
  have := List.of_mem_filter hc
  simpa using this

/-- Claim C5: the local container executor waits at most 30 seconds; on expiry it
terminates the process and returns a `TIMEOUT` (504) result; stdout that is not valid
JSON yields a `JSON_PARSE_ERROR` (400) result; any other execution fault yields a
generic `LAMBDA_ERROR` (500) result; every fault case produces a structured
`{lambda_status_code, body}` dictionary (`run_callback_container` is total — no branch
re-raises). -/
theorem container_fault_results_structured (v : ExecResult) :
    CONTAINER_WAIT_SECONDS = 30
  ∧ run_callback_container .timesOut =
      ⟨.statusBody LambdaStatusCode.TIMEOUT.value "Process Time Out (30s)", true⟩
  ∧ LambdaStatusCode.TIMEOUT.value = 504
  ∧ run_callback_container (.completes none) =
      ⟨.statusBody LambdaStatusCode.JSON_PARSE_ERROR.value
        "Invalid JSON Response from Container", false⟩
  ∧ LambdaStatusCode.JSON_PARSE_ERROR.value = 400
  ∧ run_callback_container .otherError =
      ⟨.statusBody LambdaStatusCode.LAMBDA_ERROR.value "Lambda execution error", false⟩
  ∧ LambdaStatusCode.LAMBDA_ERROR.value = 500
  ∧ run_callback_container (.completes (some v)) = ⟨v, false⟩
  ∧ (run_callback_container .timesOut).terminateCalled = true :=
  ⟨rfl, rfl, rfl, rfl, rfl, rfl, rfl, rfl, rfl⟩

/-- Claim C7: the cluster job submission does NOT pass the local executor's environment
contract.  `run_lambda_job` hard-codes the pod env to `[SESSION_ID=1234]`: the fresh
correlation id is ignored, no `EVENT` variable carries the invocation event, and no
per-callback `KEY=VALUE` entries are added; moreover the caller passes an `env_vars`
keyword that `run_lambda_job` does not accept, so the call raises `TypeError`. -/
theorem kube_job_env_contract_broken :
    run_lambda_job_env "callback_1" "sess-42" "eventjson" = [("SESSION_ID", "1234")]
  ∧ lookupD (run_lambda_job_env "callback_1" "sess-42" "eventjson") "EVENT" = none
  ∧ lookupD (run_lambda_job_env "callback_1" "sess-42" "eventjson") "SESSION_ID"
      ≠ some "sess-42"
  ∧ run_lambda_job_env "callback_1" "sess-42" "eventjson"
      ≠ docker_run_env "sess-42" "eventjson" [("K", "V")]
  ∧ "env_vars" ∈ execute_kube_callback_kwargs
  ∧ "env_vars" ∉ run_lambda_job_params := by
  refine ⟨rfl, rfl, by decide, by decide, by decide, by decide⟩

/-- Empty process state for the C1 scenario. -/
def c1_st0 : AppState := ⟨[], [], [], [], []⟩

/-- C1 scenario: register a callback with stored path `"/hello"`, method `GET`. -/
def c1_st1 : AppState :=
  match CallbackRepository.create_callback c1_st0.db "/hello" "GET" "python" "code" none [] with
  | .ok (db2, _) => { c1_st0 with db := db2 }
  | .error _ => c1_st0

/-- C1 scenario: `POST /deploy` with `status=true` (marks the callback `build`). -/
def c1_st2 : AppState :=
  match deploy_callback_docker c1_st1 1 true with
  | .ok st => st
  | .error _ => c1_st1

/-- C1 scenario: the background build succeeds (runtime exists, exit code 0). -/
def c1_st3 : AppState :=
  _build_and_register_callback c1_st2 1 "/hello" "GET" "docker" ⟨true, 0, false⟩ false

/-- C1 scenario: `POST /deploy` with `status=false` (undeploy). -/
def c1_st4 : AppState :=
  match deploy_callback_docker c1_st3 1 false with
  | .ok st => st
  | .error _ => c1_st3

/-- Claim C1 fails on the code: deployment inserts the route under
`normalize_path("/hello") = "hello"`, but the undeploy branch tests and deletes the
RAW stored path `"/hello"`, so the route entry survives the undeploy and a subsequent
`GET` dispatch to the same path executes the stale image instead of returning
NotFound/MethodNotAllowed (the registry cross-check passes because the still-present
row is matched with no status filter). -/
theorem undeploy_path_normalization_mismatch :
    normalize_path "/hello" = "hello"
  ∧ CallbackRepository.get_callback_by_id c1_st4.db 1
      = some ⟨1, "/hello", "GET", "python", "code", none, [], "undeployed"⟩
  ∧ lookupD c1_st4.callback_map "hello" = some [("GET", "callback_1")]
  ∧ (execute_callback c1_st4 "hello" "GET" [] none (.payload "stale")).response
      = .ok (.payload "stale")
  ∧ (execute_callback c1_st4 "hello" "GET" [] none (.payload "stale")).backendInvoked
      = true := by
  decide

/-- C2 scenario: register `("/hello", GET)`, deploy it successfully, then update the
registry row's method to `POST` (allowed; the route table is not touched by updates).
The registry now has NO row matching `("/hello", GET)` while the route table still
routes `GET /api/hello`. -/
def c2_st : AppState :=
  let st1 :=
    match CallbackRepository.create_callback [] "/hello" "GET" "python" "code" none [] with
    | .ok (db2, _) => AppState.mk db2 [] [] [] []
    | .error _ => ⟨[], [], [], [], []⟩
  let st2 :=
    match deploy_callback_docker st1 1 true with
    | .ok st => st
    | .error _ => st1
  let st3 := _build_and_register_callback st2 1 "/hello" "GET" "docker" ⟨true, 0, false⟩ false
  (update_callback st3 1 ⟨none, some "POST", none, none, none, none, none⟩).2

/-- Claim C2 fails on the code: the registry cross-check
`get_callback_by_path(db, path, method)` filters with a Python `and` of two SQLAlchemy
expressions, which short-circuits to the path condition alone, so a row whose path
matches but whose method differs satisfies the check.  Here no registry row matches
`("/hello", GET)`, yet `GET` dispatch is NOT answered with MethodNotAllowed — the
execution backend is invoked. -/
theorem dispatch_registry_method_check_bypassed :
    c2_st.db.any (fun c => c.path = "/hello" ∧ c.method = "GET") = false
  ∧ lookupD c2_st.callback_map "hello" = some [("GET", "callback_1")]
  ∧ CallbackRepository.get_callback_by_path c2_st.db "/hello" "GET"
      = some ⟨1, "/hello", "POST", "python", "code", none, [], "deployed"⟩
  ∧ (execute_callback c2_st "hello" "GET" [] none (.payload "stale")).response
      = .ok (.payload "stale")
  ∧ (execute_callback c2_st "hello" "GET" [] none (.payload "stale")).backendInvoked
      = true := by
  decide

/-- C6 scenario: registry after registering `("p", GET)`. -/
def c6_db1 : List CallbackInfo :=
  match CallbackRepository.create_callback [] "p" "GET" "python" "code" none [] with
  | .ok (db2, _) => db2
  | .error _ => []

/-- C6 scenario: registry after additionally registering `("p", POST)` (allowed —
both methods under one path). -/
def c6_db2 : List CallbackInfo :=
  match CallbackRepository.create_callback c6_db1 "p" "POST" "python" "code" none [] with
  | .ok (db2, _) => db2
  | .error _ => c6_db1

/-- Claim C6 fails on the code: once two callbacks share the path, the duplicate check
of `create_callback` — which inspects only the FIRST row whose path matches — no longer
sees the `("p", POST)` row (the first match is the `GET` row), so a second registration
of `("p", POST)` is not rejected with the `ValueError` that the router maps to 409
Conflict; the insert instead trips the table's `uq_path_method` unique constraint,
raising an uncaught `IntegrityError` (HTTP 500). -/
theorem duplicate_registration_not_conflict :
    c6_db2.any (fun c => c.path = "p" ∧ c.method = "POST") = true
  ∧ CallbackRepository.create_callback c6_db2 "p" "POST" "python" "code" none []
      = .error .integrityError
  ∧ (register_callback ⟨c6_db2, [], [], [], []⟩ "p" "POST" "python" "code" none []).1
      = .error .integrityError500
  ∧ (∀ m, (register_callback ⟨c6_db2, [], [], [], []⟩ "p" "POST" "python" "code" none []).1
      ≠ .error (.conflict409 m)) := by
  refine ⟨by decide, by decide, by decide, ?_⟩
  intro m h
  simp [register_callback, CallbackRepository.create_callback, c6_db2, c6_db1] at h

/-- The fingerprint a dispatch handler computes for a request. -/
def request_cache_key (p m : String) (q : List (String × String)) (b : Option String) :
    CacheKey :=
  _generate_cache_key p m q (dispatch_body_data m b)

/-- Claim C3: against a routable callback (path in the route table, method present,
registry row found) and a cold fingerprint, two identical dispatches (same path,
method, query parameters and body) invoke the execution backend exactly once: the
first call invokes it and stores its result; the second call is a cache hit that
returns the first result byte-identically — whatever `r2` a second backend run would
have produced — without invoking any backend and without changing state. -/
theorem cache_idempotence (st : AppState) (p m : String)
    (q : List (String × String)) (b : Option String) (r1 r2 : ExecResult)
    (pms : List (String × String))
    (hpath : lookupD st.callback_map p = some pms)
    (hmeth : (lookupD pms m).isNone = false)
    (hreg : (CallbackRepository.get_callback_by_path st.db ("/" ++ p) m).isNone = false)
    (hmiss : lookupD st._docker_callback_cache (request_cache_key p m q b) = none) :
    execute_callback st p m q b r1 =
      ⟨.ok r1,
        { st with _docker_callback_cache :=
            dictSet st._docker_callback_cache (request_cache_key p m q b) r1 },
        true⟩
  ∧ execute_callback
      { st with _docker_callback_cache :=
          dictSet st._docker_callback_cache (request_cache_key p m q b) r1 }
      p m q b r2 =
      ⟨.ok r1,
        { st with _docker_callback_cache :=
            dictSet st._docker_callback_cache (request_cache_key p m q b) r1 },
        false⟩ := by
  have hmiss2 : lookupD st._docker_callback_cache
      (_generate_cache_key p m q (dispatch_body_data m b)) = none := by
    simpa [request_cache_key] using hmiss
  constructor
  · simp [execute_callback, request_cache_key, hpath, hmeth, hreg, hmiss2]
  · simp [execute_callback, request_cache_key, hpath, hmeth, hreg, lookupD_dictSet_self]

/-- A concrete deployed state for the C3 witness: one deployed callback, route table
entry in place, both caches cold. -/
def c3w_st : AppState :=
  ⟨[⟨1, "/hello", "GET", "python", "code", none, [], "deployed"⟩],
    [("hello", [("GET", "callback_1")])], [], [], []⟩

/-- The C3 witness state after the first dispatch stored its result. -/
def c3w_st2 : AppState :=
  { c3w_st with _docker_callback_cache := dictSet c3w_st._docker_callback_cache (request_cache_key "hello" "GET" [] none) (.payload "r1") }

/-- Witness for `cache_idempotence` at a concrete deployed callback and request. -/
theorem cache_idempotence_witness :
    execute_callback c3w_st "hello" "GET" [] none (.payload "r1") =
      ⟨.ok (.payload "r1"), c3w_st2, true⟩
  ∧ execute_callback c3w_st2 "hello" "GET" [] none (.payload "r2") =
      ⟨.ok (.payload "r1"), c3w_st2, false⟩ :=
  cache_idempotence c3w_st "hello" "GET" [] none (.payload "r1") (.payload "r2")
    [("GET", "callback_1")] (by decide) (by decide) (by decide) (by decide)

/-- Claim C4: whenever the asynchronous build fails in any way — builder failure
result (unknown runtime, importer `TypeError`, nonzero exit) or an exception escaping
the build call — the background task sets the callback's status to `failed` and leaves
the route table exactly unchanged; `_build_and_register_callback` is total, so no
error propagates as an uncaught exception. -/
theorem build_failure_sets_failed_and_leaves_routes (st : AppState) (id : Nat)
    (path method ct : String) (benv : BuildEnv) (escape : Bool) (cb : CallbackInfo)
    (hid : CallbackRepository.get_callback_by_id st.db id = some cb)
    (hfail : escape = true
      ∨ ∀ img, build_callback_image_background id ct benv ≠ .success img) :
    (_build_and_register_callback st id path method ct benv escape).callback_map
      = st.callback_map
  ∧ CallbackRepository.get_callback_by_id
      (_build_and_register_callback st id path method ct benv escape).db id
      = some { cb with status := "failed" } := by
  have hdb : ∀ s : String, CallbackRepository.get_callback_by_id
      (update_status st.db id s) id = some { cb with status := s } := by
    intro s
    rw [get_callback_by_id_update_status, hid]
    rfl
  cases hfail with
  | inl he =>
      subst he
      exact ⟨rfl, hdb _⟩
  | inr hf =>
      cases hesc : escape with
      | true => exact ⟨rfl, hdb _⟩
      | false =>
          cases hb : build_callback_image_background id ct benv with
          | success img => exact absurd hb (hf img)
          | failed e =>
              constructor
              · simp [_build_and_register_callback, hb]
              · simp [_build_and_register_callback, hb, hdb]

/-- A concrete state for the C4 witness: one callback in status `build`. -/
def c4w_st : AppState :=
  ⟨[⟨1, "/hello", "GET", "python", "code", none, [], "build"⟩], [], [], [], []⟩

/-- Witness for `build_failure_sets_failed_and_leaves_routes`: a `docker build` exit
code of 1 marks callback 1 `failed` and adds no route. -/
theorem build_failure_witness :
    (_build_and_register_callback c4w_st 1 "/hello" "GET" "docker"
        ⟨true, 1, false⟩ false).callback_map = c4w_st.callback_map
  ∧ CallbackRepository.get_callback_by_id
      (_build_and_register_callback c4w_st 1 "/hello" "GET" "docker"
        ⟨true, 1, false⟩ false).db 1
      = some ⟨1, "/hello", "GET", "python", "code", none, [], "failed"⟩ :=
  build_failure_sets_failed_and_leaves_routes c4w_st 1 "/hello" "GET" "docker"
    ⟨true, 1, false⟩ false ⟨1, "/hello", "GET", "python", "code", none, [], "build"⟩
    (by decide)
    (Or.inr (fun img h => by simp [build_callback_image_background] at h))

/-- Claim C9: deleting a callback whose status is `build` is rejected with HTTP 400
and the whole state — registry, route table and both caches — is returned unchanged;
for any other status the deletion proceeds and the registry row is gone. -/
theorem delete_build_guard (st : AppState) (id : Nat) (cb : CallbackInfo)
    (hid : CallbackRepository.get_callback_by_id st.db id = some cb) :
    (cb.status = "build" → delete_callback st id = (.error .badRequest400, st))
  ∧ (cb.status ≠ "build" →
      (delete_callback st id).1 = .ok "Callback deleted successfully"
      ∧ CallbackRepository.get_callback_by_id (delete_callback st id).2.db id = none) := by
  constructor
  · intro hs
    simp [delete_callback, hid, hs]
  · intro hs
    simp only [delete_callback, CallbackRepository.delete_callback, hid]
    rw [if_neg hs]
    split
    · exact ⟨rfl, by simpa [clear_api_caches] using get_callback_by_id_filter_ne st.db id⟩
    · exact ⟨rfl, by simpa using get_callback_by_id_filter_ne st.db id⟩

/-- A concrete state for the C9 witness: callback 1 is building, callback 2 deployed. -/
def c9w_st : AppState :=
  ⟨[⟨1, "/a", "GET", "python", "code", none, [], "build"⟩,
    ⟨2, "/b", "GET", "python", "code", none, [], "deployed"⟩], [], [], [], []⟩

/-- Witness for `delete_build_guard`: deleting the building callback is a 400 no-op;
deleting the deployed one succeeds. -/
theorem delete_build_guard_witness :
    delete_callback c9w_st 1 = (.error .badRequest400, c9w_st)
  ∧ (delete_callback c9w_st 2).1 = .ok "Callback deleted successfully" :=
  ⟨(delete_build_guard c9w_st 1
      ⟨1, "/a", "GET", "python", "code", none, [], "build"⟩ (by decide)).1 rfl,
   ((delete_build_guard c9w_st 2
      ⟨2, "/b", "GET", "python", "code", none, [], "deployed"⟩ (by decide)).2
      (by decide)).1⟩

/-- C8 scenario: deploy and dispatch callback 1 (`"/a"`, GET) so the docker cache
holds a result, then register a second callback (`"/x"`, GET) that stays `pending`. -/
def c8_st : AppState :=
  let st1 :=
    match CallbackRepository.create_callback [] "/a" "GET" "python" "code" none [] with
    | .ok (db2, _) => AppState.mk db2 [] [] [] []
    | .error _ => ⟨[], [], [], [], []⟩
  let st2 := match deploy_callback_docker st1 1 true with | .ok s => s | .error _ => st1
  let st3 := _build_and_register_callback st2 1 "/a" "GET" "docker" ⟨true, 0, false⟩ false
  let st4 := (execute_callback st3 "a" "GET" [] none (.payload "res")).st
  match CallbackRepository.create_callback st4.db "/x" "GET" "python" "code" none [] with
  | .ok (db2, _) => { st4 with db := db2 }
  | .error _ => st4

/-- Claim C8 fails on the code for deletions: deleting callback 2 — whose raw stored
`(path, method)` is not in the route table — succeeds, yet `clear_api_caches` is not
invoked and the docker cache still holds the earlier result (it is nonempty and
unchanged), contradicting "after any callback deletion both response caches are
empty". -/
theorem delete_without_route_leaves_caches :
    (delete_callback c8_st 2).1 = .ok "Callback deleted successfully"
  ∧ CallbackRepository.get_callback_by_id (delete_callback c8_st 2).2.db 2 = none
  ∧ (delete_callback c8_st 2).2._docker_callback_cache
      = [(request_cache_key "a" "GET" [] none, .payload "res")]
  ∧ (delete_callback c8_st 2).2._docker_callback_cache ≠ [] := by
  decide

/-- Claim C8, amended: every successful callback update clears both response caches;
a deletion clears them exactly when the deleted callback's raw stored `(path, method)`
pair is present in the route table — a deletion of a callback that is not routed under
its raw stored path leaves both caches unchanged. -/
theorem cache_clear_policy (st : AppState) (id : Nat)
    (kw : CallbackRepository.UpdateKwargs) :
    (∀ cb st2, update_callback st id kw = (.ok cb, st2) →
        st2._kube_callback_cache = [] ∧ st2._docker_callback_cache = [])
  ∧ (∀ cb msg st2, CallbackRepository.get_callback_by_id st.db id = some cb →
      delete_callback st id = (.ok msg, st2) →
      if dictContains st.callback_map cb.path
          ∧ (lookupD st.callback_map cb.path).any (fun ms => dictContains ms cb.method)
      then st2._kube_callback_cache = [] ∧ st2._docker_callback_cache = []
      else st2._kube_callback_cache = st._kube_callback_cache
          ∧ st2._docker_callback_cache = st._docker_callback_cache) := by
  constructor
  · intro cb st2 h
    unfold update_callback at h
    split at h
    · simp at h
    · split at h
      · simp only [] at h
        split at h <;> simp at h
      · simp only [] at h
        split at h <;> simp at h
      · simp only [] at h
        split at h
        · simp at h
        · injection h with h1 h2
          subst h2
          exact ⟨rfl, rfl⟩
  · intro cb msg st2 hcb hdel
    simp only [delete_callback, hcb] at hdel
    split at hdel
    · simp at hdel
    · split at hdel
      next hcond =>
        rw [if_pos hcond]
        injection hdel with h1 h2
        subst h2
        exact ⟨rfl, rfl⟩
      next hcond =>
        rw [if_neg hcond]
        injection hdel with h1 h2
        subst h2
        exact ⟨rfl, rfl⟩

/-- A concrete state for the C8 witness: one deployed, routed callback and a warm
entry in each cache. -/
def c8w_st : AppState :=
  ⟨[⟨1, "/a", "GET", "python", "old", none, [], "deployed"⟩],
    [("a", [("GET", "callback_1")])], [],
    [(request_cache_key "a" "GET" [] none, .payload "r")],
    [(request_cache_key "a" "GET" [] none, .payload "r")]⟩

/-- The C8 witness state after a successful code update. -/
def c8w_st2 : AppState :=
  clear_api_caches
    { c8w_st with db := [⟨1, "/a", "GET", "python", "new", none, [], "deployed"⟩] }

/-- Witness for `cache_clear_policy`: a successful code update empties both caches. -/
theorem cache_clear_policy_witness :
    c8w_st2._kube_callback_cache = [] ∧ c8w_st2._docker_callback_cache = [] :=
  (cache_clear_policy c8w_st 1 ⟨none, none, none, some "new", none, none, none⟩).1
    ⟨1, "/a", "GET", "python", "new", none, [], "deployed"⟩ c8w_st2 (by decide)

/-- Claim C10: the two dispatch endpoints keep disjoint caches.  A cluster dispatch
never changes the docker cache and a local dispatch never changes the kube cache; any
response the cluster endpoint serves without work comes from the kube cache alone, and
any response the local endpoint serves without invoking the backend comes from the
docker cache alone — a result cached by one endpoint is never returned by the other. -/
theorem caches_disjoint (st : AppState) (p m : String)
    (q : List (String × String)) (b : Option String) (r : ExecResult) :
    (execute_kube_callback st p m q b).st._docker_callback_cache
      = st._docker_callback_cache
  ∧ (execute_callback st p m q b r).st._kube_callback_cache
      = st._kube_callback_cache
  ∧ (∀ res, (execute_kube_callback st p m q b).response = .ok res →
      lookupD st._kube_callback_cache (request_cache_key p m q b) = some res)
  ∧ (∀ res, (execute_callback st p m q b r).response = .ok res →
      (execute_callback st p m q b r).backendInvoked = false →
      lookupD st._docker_callback_cache (request_cache_key p m q b) = some res) := by
  refine ⟨?_, ?_, ?_, ?_⟩
  · unfold execute_kube_callback
    split
    · rfl
    · split
      · rfl
      · simp only []
        split <;> rfl
  · unfold execute_callback
    split
    · rfl
    · split
      · rfl
      · simp only []
        split <;> rfl
  · intro res h
    unfold execute_kube_callback at h
    split at h
    · simp at h
    · split at h
      · simp at h
      · simp only [] at h
        split at h
        · injection h with h1
          subst h1
          simpa [request_cache_key] using by assumption
        · simp at h
  · intro res h hinv
    unfold execute_callback at h hinv
    cases hm : lookupD st.callback_map p with
    | none => simp only [hm] at h; simp at h
    | some pms =>
        simp only [hm] at h hinv
        by_cases hcond : (lookupD pms m).isNone = true
            ∨ (CallbackRepository.get_callback_by_path st.db ("/" ++ p) m).isNone = true
        · rw [if_pos hcond] at h
          simp at h
        · rw [if_neg hcond] at h hinv
          cases hc : lookupD st._docker_callback_cache
              (_generate_cache_key p m q (dispatch_body_data m b)) with
          | some cached =>
              simp only [hc] at h
              simp only [request_cache_key]
              rw [hc]
              simpa using h
          | none =>
              simp only [hc] at hinv
              simp at hinv

/-- A concrete state for the C10 witness: the kube cache holds a result for a
fingerprint the docker cache does not know. -/
def c10w_st : AppState :=
  ⟨[⟨1, "/a", "GET", "python", "code", none, [], "deployed"⟩],
    [("a", [("GET", "callback_1")])], [],
    [(request_cache_key "a" "GET" [] none, .payload "kube-res")], []⟩

/-- Witness for `caches_disjoint`: a cluster dispatch leaves the docker cache
untouched, and the result it serves comes from the kube cache. -/
theorem caches_disjoint_witness :
    (execute_kube_callback c10w_st "a" "GET" [] none).st._docker_callback_cache
      = c10w_st._docker_callback_cache
  ∧ lookupD c10w_st._kube_callback_cache (request_cache_key "a" "GET" [] none)
      = some (.payload "kube-res") :=
  ⟨(caches_disjoint c10w_st "a" "GET" [] none (.payload "x")).1,
   (caches_disjoint c10w_st "a" "GET" [] none (.payload "x")).2.2.1
     (.payload "kube-res") (by decide)⟩
